/-
  Verification of the VERYFIN personal-finance backend (TypeScript) against
  its natural-language specification.

  Shallow embedding notes:
  * Dates/timestamps are modelled as integers (milliseconds since epoch),
    matching `Date.getTime()`.  `Date.setDate(d - g)` on a date is modelled as
    subtracting `g` whole days in milliseconds (no DST in the model).
  * `Math.floor(x / y)` on integer millisecond differences is modelled by
    integer floor division `Int.fdiv` (exact for the magnitudes the service
    handles, where the binary64 quotient cannot cross an integer boundary).
  * JavaScript `number` values are binary64 floats.  They are modelled as the
    exact rational values they denote; one floating-point addition is a true
    rational addition followed by `rnd53`, rounding to 53 significant bits
    with round-to-nearest, ties-to-even (the binary64 rule for results in the
    normal finite range; overflow and subnormals are outside the modelled
    range and outside every statement below).
  * SQL tables are modelled as lists of row structures; a drizzle
    `where(and(eq ..., eq ...))` clause becomes a Boolean filter over rows.
-/
import Mathlib

set_option maxRecDepth 2500

namespace Veryfin

/-- One day in milliseconds, the divisor used by `updateStreakProgress`
(`1000 * 60 * 60 * 24`). -/
def dayMs : ℤ := 1000 * 60 * 60 * 24

/-- Row of the `streak_entries` table (src/shared/schema.ts): `id`,
`streakId`, `amount` (real), `saveDate` (parsed to a timestamp), `createdAt`. -/
structure StreakEntry where
  id : ℤ
  streakId : ℤ
  amount : ℚ
  saveDate : ℤ
  createdAt : ℤ
deriving DecidableEq, Repr

/-- Row of the `savings_streaks` table (src/shared/schema.ts). -/
structure SavingsStreak where
  id : ℤ
  userId : String
  challengeName : String
  targetAmount : ℚ
  frequency : String
  currentStreak : ℤ
  longestStreak : ℤ
  isActive : Bool
  lastSaveDate : Option ℤ
  totalSaved : ℚ
  startDate : String
  endDate : Option String
  createdAt : ℤ
  updatedAt : ℤ
deriving DecidableEq, Repr

/-- The expected maximum gap in days chosen by `updateStreakProgress`
(src/unnamed/part_001, lines 513–515): start from `1` (daily), override with
`7` when `frequency === 'weekly'` and with `30` when
`frequency === 'monthly'`.  Any other string keeps the initial `1`. -/
def expectedGapOf (frequency : String) : ℤ :=
  if frequency = "weekly" then 7 else if frequency = "monthly" then 30 else 1

/-- `Math.floor((checkDate.getTime() - entryDate.getTime()) / (1000*60*60*24))`
(src/unnamed/part_001, line 511). -/
def daysDiff (checkDate entryDate : ℤ) : ℤ :=
  (checkDate - entryDate).fdiv dayMs

/-- The `for (const entry of sortedEntries)` loop of `updateStreakProgress`
(src/unnamed/part_001, lines 507–524): count an entry whose whole-day gap
from the cursor is at most `gap`, move the cursor to the entry's save date
minus `gap` days, and `break` at the first entry whose gap exceeds `gap`. -/
def streakWalk (gap : ℤ) : ℤ → List StreakEntry → ℕ
  | _, [] => 0
  | checkDate, e :: rest =>
    if daysDiff checkDate e.saveDate ≤ gap then
      streakWalk gap (e.saveDate - gap * dayMs) rest + 1
    else 0

/-- `entries.sort((a, b) => new Date(b.saveDate).getTime() - new Date(a.saveDate).getTime())`
(src/unnamed/part_001, line 501): sort most-recent-first. -/
def sortEntriesDesc (entries : List StreakEntry) : List StreakEntry :=
  List.insertionSort (fun a b => b.saveDate ≤ a.saveDate) entries

/-- Structural-recursion computation of `⌊log₂ n⌋` (fuel-driven so that the
kernel can evaluate it; `log2fuel n n` is exact for every `n ≥ 1` because the
iteration halves `n` each step). -/
def log2fuel : ℕ → ℕ → ℕ
  | 0, _ => 0
  | fuel + 1, n => if n ≤ 1 then 0 else log2fuel fuel (n / 2) + 1

/-- `⌊log₂ n⌋` for `n ≥ 1` (and `0` at `0`). -/
def nlog2 (n : ℕ) : ℕ := log2fuel n n

/-- `q * 2 ^ e`, computed by scaling the numerator (for `e ≥ 0`) or the
denominator (for `e < 0`) directly, so that concrete instances reduce in a
few steps.  `mulPow2_eq` below proves it equal to `q * 2 ^ e`. -/
def mulPow2 (q : ℚ) (e : ℤ) : ℚ :=
  if 0 ≤ e then mkRat (q.num * Int.ofNat (Nat.pow 2 e.toNat)) q.den
  else mkRat q.num (q.den * Nat.pow 2 (-e).toNat)

/-- Decide `2 ^ e ≤ q` by cross-multiplied integer comparison
(`pow2Le_iff` below proves the characterization). -/
def pow2Le (e : ℤ) (q : ℚ) : Bool :=
  if 0 ≤ e then decide (Int.ofNat (Nat.pow 2 e.toNat) * (q.den : ℤ) ≤ q.num)
  else decide ((q.den : ℤ) ≤ Int.ofNat (Nat.pow 2 (-e).toNat) * q.num)

/-- `⌊log₂ |q|⌋` for a nonzero rational: the unique `e` with `2^e ≤ |q| < 2^(e+1)`,
found from the bit lengths of numerator and denominator and corrected by
direct comparison (the initial guess is off by at most one). -/
def flog2 (q : ℚ) : ℤ :=
  let e0 : ℤ := (nlog2 q.num.natAbs : ℤ) - (nlog2 q.den : ℤ)
  if pow2Le (e0 + 1) |q| then e0 + 1
  else if pow2Le e0 |q| then e0
  else e0 - 1

/-- Round a rational to the nearest integer, ties to even (twice the
fractional part is compared against one, cross-multiplied to stay at the
integer level). -/
def roundHalfEven (m : ℚ) : ℤ :=
  let n := ⌊m⌋
  let fracNum : ℤ := 2 * (m.num - n * (m.den : ℤ))
  if fracNum < (m.den : ℤ) then n
  else if (m.den : ℤ) < fracNum then n + 1
  else if 2 ∣ n then n else n + 1

/-- Binary64 rounding of an exact rational value: round the significand to 53
bits with round-to-nearest, ties-to-even.  This is IEEE-754 double rounding
for results in the normal finite range, which covers every value handled by
the service. -/
def rnd53 (q : ℚ) : ℚ :=
  if q = 0 then 0
  else
    let m : ℤ := roundHalfEven (mulPow2 |q| (52 - flog2 q))
    mulPow2 ((if q < 0 then -m else m : ℤ) : ℚ) (flog2 q - 52)

/-- One JavaScript `number` addition: exact rational addition followed by
binary64 rounding. -/
def fadd (x y : ℚ) : ℚ := rnd53 (x + y)

/-- `entries.reduce((sum, entry) => sum + parseFloat(entry.amount), 0)`
(src/unnamed/part_001, line 497): a left-to-right floating-point sum. -/
def jsSum (amounts : List ℚ) : ℚ := amounts.foldl fadd 0

/-- The pure core of `DatabaseStorage.updateStreakProgress`
(src/unnamed/part_001, lines 490–543) after the streak row and its entries
have been fetched: recompute `totalSaved`, `currentStreak`, `longestStreak`
and `lastSaveDate` and write them (together with `updatedAt`) back onto the
streak row.  `now` is `new Date()`. -/
def updateStreakProgress (now : ℤ) (streak : SavingsStreak)
    (entries : List StreakEntry) : SavingsStreak :=
  let totalSaved := jsSum (entries.map StreakEntry.amount)
  let sortedEntries := sortEntriesDesc entries
  let currentStreak := streakWalk (expectedGapOf streak.frequency) now sortedEntries
  let longestStreak := max (currentStreak : ℤ) streak.longestStreak
  let lastSaveDate := sortedEntries.head?.map StreakEntry.saveDate
  { streak with
    currentStreak := (currentStreak : ℤ)
    longestStreak := longestStreak
    totalSaved := totalSaved
    lastSaveDate := lastSaveDate
    updatedAt := now }

instance : Inhabited StreakEntry := ⟨⟨0, 0, 0, 0, 0⟩⟩

/-- The route `POST /api/streaks/:id/entries` (src/unnamed/part_002, lines
317–345) appends the validated entry and then recomputes the streak: one
"add an entry, then recompute" step acting on a streak row paired with its
entry list. -/
def addEntryAndRecompute (now : ℤ) (st : SavingsStreak × List StreakEntry)
    (e : StreakEntry) : SavingsStreak × List StreakEntry :=
  let entries := st.2 ++ [e]
  (updateStreakProgress now st.1 entries, entries)

/-- Specification-side description of the walk's cursor: before the first
entry the cursor is "now"; before entry `i + 1` it is entry `i`'s save date
minus the expected gap in days. -/
def specCursor (gap now : ℤ) (l : List StreakEntry) : ℕ → ℤ
  | 0 => now
  | i + 1 => (l.getD i default).saveDate - gap * dayMs

/-- `n` entries on consecutive calendar days, most recent first, the most
recent one dated `base`. -/
def dailyEntries : ℕ → ℤ → List StreakEntry
  | 0, _ => []
  | n + 1, base => ⟨0, 0, 1, base, 0⟩ :: dailyEntries n (base - dayMs)

/-! ### Entity rows and the ownership-scoped store

Each table of src/shared/schema.ts owned by a user becomes a row structure,
a table becomes a `List` of rows, and the drizzle queries of
`DatabaseStorage` (src/unnamed/part_001) become filters over that list. -/

/-- Row of the `users` table. -/
structure User where
  id : String
  email : String
  password : String
  firstName : Option String
  lastName : Option String
  createdAt : ℤ
  updatedAt : ℤ
deriving DecidableEq, Repr

/-- Row of the `expenses` table. -/
structure Expense where
  id : ℤ
  userId : String
  description : String
  amount : ℚ
  category : String
  date : String
  isRecurring : Option Bool
  dayOfMonth : Option ℤ
  endDate : Option String
  dueDate : Option String
  createdAt : ℤ
deriving DecidableEq, Repr

/-- Row of the `budgets` table. -/
structure Budget where
  id : ℤ
  userId : String
  category : String
  amount : ℚ
  period : String
  createdAt : ℤ
deriving DecidableEq, Repr

/-- Row of the `goals` table. -/
structure Goal where
  id : ℤ
  userId : String
  title : String
  description : Option String
  targetAmount : ℚ
  currentAmount : ℚ
  category : String
  targetDate : String
  status : String
  createdAt : ℤ
  updatedAt : ℤ
deriving DecidableEq, Repr

/-- `const [row] = await db.select().from(t).where(p)`: first row satisfying
the condition, if any. -/
def selectFirst {ρ : Type} (p : ρ → Bool) (rows : List ρ) : Option ρ :=
  (rows.filter p).head?

/-- `db.update(t).set(f).where(p).returning()`: the table after the update
together with the first returned (already-updated) row. -/
def updateWhere {ρ : Type} (f : ρ → ρ) (p : ρ → Bool) (rows : List ρ) :
    List ρ × Option ρ :=
  (rows.map fun r => if p r then f r else r, ((rows.filter p).head?).map f)

/-- `db.delete(t).where(p)`: the table after the delete together with
`(result.rowCount || 0) > 0`. -/
def deleteWhere {ρ : Type} (p : ρ → Bool) (rows : List ρ) : List ρ × Bool :=
  (rows.filter fun r => !(p r), rows.any p)

namespace DatabaseStorage

/-- The condition `and(eq(t.id, id), eq(t.userId, userId))` used by every
single-row expense query of `DatabaseStorage`. -/
def expenseMatch (id : ℤ) (userId : String) (e : Expense) : Bool :=
  decide (e.id = id ∧ e.userId = userId)

/-- `and(eq(budgets.id, id), eq(budgets.userId, userId))`. -/
def budgetMatch (id : ℤ) (userId : String) (b : Budget) : Bool :=
  decide (b.id = id ∧ b.userId = userId)

/-- `and(eq(goals.id, id), eq(goals.userId, userId))`. -/
def goalMatch (id : ℤ) (userId : String) (g : Goal) : Bool :=
  decide (g.id = id ∧ g.userId = userId)

/-- `and(eq(savingsStreaks.id, id), eq(savingsStreaks.userId, userId))`. -/
def streakMatch (id : ℤ) (userId : String) (s : SavingsStreak) : Bool :=
  decide (s.id = id ∧ s.userId = userId)

/-- `DatabaseStorage.getExpense` (src/unnamed/part_001, lines 320–325). -/
def getExpense (db : List Expense) (id : ℤ) (userId : String) : Option Expense :=
  selectFirst (expenseMatch id userId) db

/-- `DatabaseStorage.updateExpense` (lines 335–342); the partial `set` payload
is abstracted as a row transformer. -/
def updateExpense (db : List Expense) (id : ℤ) (set : Expense → Expense)
    (userId : String) : List Expense × Option Expense :=
  updateWhere set (expenseMatch id userId) db

/-- `DatabaseStorage.deleteExpense` (lines 344–349). -/
def deleteExpense (db : List Expense) (id : ℤ) (userId : String) :
    List Expense × Bool :=
  deleteWhere (expenseMatch id userId) db

/-- `DatabaseStorage.updateBudget` (lines 379–386). -/
def updateBudget (db : List Budget) (id : ℤ) (set : Budget → Budget)
    (userId : String) : List Budget × Option Budget :=
  updateWhere set (budgetMatch id userId) db

/-- `DatabaseStorage.deleteBudget` (lines 388–393). -/
def deleteBudget (db : List Budget) (id : ℤ) (userId : String) :
    List Budget × Bool :=
  deleteWhere (budgetMatch id userId) db

/-- `DatabaseStorage.getGoal` (src/unnamed/part_001, lines 399–404). -/
def getGoal (db : List Goal) (id : ℤ) (userId : String) : Option Goal :=
  selectFirst (goalMatch id userId) db

/-- `DatabaseStorage.updateGoal` (lines 414–421): apply the partial payload
(abstracted as `set`) and stamp `updatedAt` with `new Date()`. -/
def updateGoal (db : List Goal) (id : ℤ) (set : Goal → Goal) (userId : String)
    (now : ℤ) : List Goal × Option Goal :=
  updateWhere (fun g => { set g with updatedAt := now }) (goalMatch id userId) db

/-- `DatabaseStorage.deleteGoal` (lines 423–428). -/
def deleteGoal (db : List Goal) (id : ℤ) (userId : String) :
    List Goal × Bool :=
  deleteWhere (goalMatch id userId) db

/-- `DatabaseStorage.updateGoalProgress` (src/unnamed/part_001, lines
430–440): set `currentAmount` to the given amount and `updatedAt` to
`new Date()`, filtered by id and userId. -/
def updateGoalProgress (db : List Goal) (id : ℤ) (amount : ℚ)
    (userId : String) (now : ℤ) : List Goal × Option Goal :=
  updateWhere (fun g => { g with currentAmount := amount, updatedAt := now })
    (goalMatch id userId) db

/-- `DatabaseStorage.getSavingsStreak` (lines 447–452). -/
def getSavingsStreak (db : List SavingsStreak) (id : ℤ) (userId : String) :
    Option SavingsStreak :=
  selectFirst (streakMatch id userId) db

/-- `DatabaseStorage.updateSavingsStreak` (lines 462–469). -/
def updateSavingsStreak (db : List SavingsStreak) (id : ℤ)
    (set : SavingsStreak → SavingsStreak) (userId : String) (now : ℤ) :
    List SavingsStreak × Option SavingsStreak :=
  updateWhere (fun s => { set s with updatedAt := now }) (streakMatch id userId) db

/-- `DatabaseStorage.deleteSavingsStreak` (lines 471–476). -/
def deleteSavingsStreak (db : List SavingsStreak) (id : ℤ) (userId : String) :
    List SavingsStreak × Bool :=
  deleteWhere (streakMatch id userId) db

/-- `DatabaseStorage.getUserByEmail` (lines 287–290). -/
def getUserByEmail (db : List User) (email : String) : Option User :=
  selectFirst (fun u => decide (u.email = email)) db

end DatabaseStorage

/-- A JSON value as it can appear for the `amount` field of a request body;
`typeof amount === "number"` holds exactly for the `num` constructor. -/
inductive Json where
  | num (x : ℚ)
  | str (s : String)
  | jbool (b : Bool)
  | null
deriving DecidableEq, Repr

namespace Routes

/-- `GET /api/goals/:id` (src/unnamed/part_002, lines 181–195): 404 when the
owner-scoped lookup finds nothing, 200 otherwise. -/
def getGoalRoute (db : List Goal) (id : ℤ) (userId : String) : ℕ :=
  match DatabaseStorage.getGoal db id userId with
  | none => 404
  | some _ => 200

/-- `PUT /api/goals/:id` (src/unnamed/part_002, lines 214–233). -/
def putGoalRoute (db : List Goal) (id : ℤ) (set : Goal → Goal)
    (userId : String) (now : ℤ) : ℕ × List Goal :=
  let r := DatabaseStorage.updateGoal db id set userId now
  match r.2 with
  | none => (404, r.1)
  | some _ => (200, r.1)

/-- `DELETE /api/goals/:id` (src/unnamed/part_002, lines 235–249). -/
def deleteGoalRoute (db : List Goal) (id : ℤ) (userId : String) :
    ℕ × List Goal :=
  let r := DatabaseStorage.deleteGoal db id userId
  if r.2 then (204, r.1) else (404, r.1)

/-- `PATCH /api/goals/:id/progress` (src/unnamed/part_002, lines 251–271):
reject with 400 unless the body's `amount` is a number `≥ 0`, then delegate
to `updateGoalProgress` and map a missing row to 404. -/
def patchGoalProgressRoute (db : List Goal) (id : ℤ) (userId : String)
    (amount : Json) (now : ℤ) : ℕ × List Goal :=
  match amount with
  | Json.num x =>
    if x < 0 then (400, db)
    else
      let r := DatabaseStorage.updateGoalProgress db id x userId now
      match r.2 with
      | none => (404, r.1)
      | some _ => (200, r.1)
  | _ => (400, db)

/-- `GET /api/expenses/:id` (src/unnamed/part_002, lines 35–49). -/
def getExpenseRoute (db : List Expense) (id : ℤ) (userId : String) : ℕ :=
  match DatabaseStorage.getExpense db id userId with
  | none => 404
  | some _ => 200

/-- `PUT /api/expenses/:id` (src/unnamed/part_002, lines 68–87). -/
def putExpenseRoute (db : List Expense) (id : ℤ) (set : Expense → Expense)
    (userId : String) : ℕ × List Expense :=
  let r := DatabaseStorage.updateExpense db id set userId
  match r.2 with
  | none => (404, r.1)
  | some _ => (200, r.1)

/-- `DELETE /api/expenses/:id` (src/unnamed/part_002, lines 89–103). -/
def deleteExpenseRoute (db : List Expense) (id : ℤ) (userId : String) :
    ℕ × List Expense :=
  let r := DatabaseStorage.deleteExpense db id userId
  if r.2 then (204, r.1) else (404, r.1)

/-- `PUT /api/budgets/:id` (src/unnamed/part_002, lines 133–152). -/
def putBudgetRoute (db : List Budget) (id : ℤ) (set : Budget → Budget)
    (userId : String) : ℕ × List Budget :=
  let r := DatabaseStorage.updateBudget db id set userId
  match r.2 with
  | none => (404, r.1)
  | some _ => (200, r.1)

/-- `DELETE /api/budgets/:id` (src/unnamed/part_002, lines 154–168). -/
def deleteBudgetRoute (db : List Budget) (id : ℤ) (userId : String) :
    ℕ × List Budget :=
  let r := DatabaseStorage.deleteBudget db id userId
  if r.2 then (204, r.1) else (404, r.1)

/-- `GET /api/streaks/:id` (src/unnamed/part_002, lines 284–298). -/
def getStreakRoute (db : List SavingsStreak) (id : ℤ) (userId : String) : ℕ :=
  match DatabaseStorage.getSavingsStreak db id userId with
  | none => 404
  | some _ => 200

/-- `DELETE /api/streaks/:id` (src/unnamed/part_002, lines 365–379). -/
def deleteStreakRoute (db : List SavingsStreak) (id : ℤ) (userId : String) :
    ℕ × List SavingsStreak :=
  let r := DatabaseStorage.deleteSavingsStreak db id userId
  if r.2 then (204, r.1) else (404, r.1)

/-- JavaScript `x || null` on an optional string: the empty string is falsy
and becomes `null`. -/
def jsOrNull (s : Option String) : Option String :=
  match s with
  | some "" => none
  | none => none
  | some x => some x

/-- `POST /api/register` (src/unnamed/part_000, lines 660–694): 400 when
email or password is missing/empty, 400 `"Usuário já existe"` when the email
is taken (spec taxonomy: `Conflict`, mapped to 409/400), otherwise hash the
password and append the new user row.  `hash`, `freshId` and `now` stand for
the scrypt hasher, the generated uuid and `new Date()`. -/
def registerRoute (db : List User) (email password : Option String)
    (firstName lastName : Option String) (hash : String → String)
    (freshId : String) (now : ℤ) : ℕ × List User :=
  match email, password with
  | some e, some p =>
    if e = "" ∨ p = "" then (400, db)
    else
      match DatabaseStorage.getUserByEmail db e with
      | some _ => (400, db)
      | none =>
        (201, db ++ [{ id := freshId, email := e, password := hash p,
                       firstName := jsOrNull firstName,
                       lastName := jsOrNull lastName,
                       createdAt := now, updatedAt := now }])
  | _, _ => (400, db)

/-- `POST /api/auth/register` (src/index.ts, lines 400–434): 409
`"Email já está em uso"` when the email is taken, otherwise hash with bcrypt
and insert. -/
def authRegisterRoute (db : List User) (email password : String)
    (firstName lastName : Option String) (hash : String → String)
    (freshId : String) (now : ℤ) : ℕ × List User :=
  match DatabaseStorage.getUserByEmail db email with
  | some _ => (409, db)
  | none =>
    (201, db ++ [{ id := freshId, email := email, password := hash password,
                   firstName := firstName, lastName := lastName,
                   createdAt := now, updatedAt := now }])

/-- `PUT /api/goals/:id` of the standalone server (src/index.ts, lines
786–817).  The update chains `.where(eq(goals.id, id)).where(eq(goals.userId,
userId))`; drizzle's `where` stores a single condition on the builder, so the
second call replaces the first and the effective runtime filter is
`eq(goals.userId, userId)` alone — the parsed `id` takes no part in the
query.  A missing result maps to 404. -/
def indexPutGoalRoute (db : List Goal) (id : ℤ) (set : Goal → Goal)
    (userId : String) (now : ℤ) : ℕ × List Goal :=
  let r := updateWhere (fun g => { set g with updatedAt := now })
    (fun g => decide (g.userId = userId)) db
  match r.2 with
  | none => (404, r.1)
  | some _ => (200, r.1)

/-- `DELETE /api/goals/:id` of the standalone server (src/index.ts, lines
839–859), with the same chained `.where` calls: the second replaces the
first, so the delete is filtered by `eq(goals.userId, userId)` alone and the
parsed `id` takes no part in the query. -/
def indexDeleteGoalRoute (db : List Goal) (id : ℤ) (userId : String) :
    ℕ × List Goal :=
  let r := deleteWhere (fun g => decide (g.userId = userId)) db
  if r.2 then (204, r.1) else (404, r.1)

end Routes

/-- A freshly created streak row (all derived fields at their schema
defaults), used to instantiate theorems at concrete inputs. -/
def sampleStreak (frequency : String) : SavingsStreak :=
  { id := 1, userId := "alice", challengeName := "save", targetAmount := 100,
    frequency := frequency, currentStreak := 0, longestStreak := 0,
    isActive := true, lastSaveDate := none, totalSaved := 0,
    startDate := "2025-01-01", endDate := none, createdAt := 0, updatedAt := 0 }

/-- A concrete goal row used to instantiate theorems. -/
def sampleGoal : Goal :=
  { id := 1, userId := "alice", title := "trip", description := none,
    targetAmount := 1000, currentAmount := 0, category := "travel",
    targetDate := "2025-12-31", status := "active", createdAt := 0, updatedAt := 0 }

/-- A second concrete goal row, owned by a different user. -/
def bobGoal : Goal :=
  { id := 2, userId := "bob", title := "bike", description := none,
    targetAmount := 500, currentAmount := 0, category := "sport",
    targetDate := "2025-12-31", status := "active", createdAt := 0, updatedAt := 0 }

/-- A concrete expense row used to instantiate theorems. -/
def sampleExpense : Expense :=
  { id := 1, userId := "alice", description := "groceries", amount := 10,
    category := "food", date := "2025-01-01", isRecurring := none,
    dayOfMonth := none, endDate := none, dueDate := none, createdAt := 0 }

/-- A concrete budget row used to instantiate theorems. -/
def sampleBudget : Budget :=
  { id := 1, userId := "alice", category := "food", amount := 10,
    period := "monthly", createdAt := 0 }

/-- A concrete user row used to instantiate theorems. -/
def sampleUser : User :=
  { id := "u1", email := "alice@mail.com", password := "hashed", firstName := none,
    lastName := none, createdAt := 0, updatedAt := 0 }

/-- A rational value that binary64 rounding leaves unchanged, i.e. a value
exactly representable as a JavaScript `number`. -/
def Fix53 (q : ℚ) : Prop := rnd53 q = q

/-- Remove every row carrying the given id: the table as it would look if
that id had never existed (used to state "a foreign id behaves exactly like
a nonexistent id"). -/
def withoutId {ρ : Type} (rowId : ρ → ℤ) (id : ℤ) (rows : List ρ) : List ρ :=
  rows.filter fun r => decide (rowId r ≠ id)

/-! ### Lemmas about the streak walk -/

theorem streakWalk_le_length (gap c : ℤ) (l : List StreakEntry) :
    streakWalk gap c l ≤ l.length := by
  induction l generalizing c with
  | nil => simp [streakWalk]
  | cons e rest ih =>
    rw [streakWalk]
    split
    · exact Nat.succ_le_succ (ih _)
    · exact Nat.zero_le _

theorem specCursor_cons (gap now : ℤ) (e : StreakEntry) (l : List StreakEntry)
    (i : ℕ) :
    specCursor gap now (e :: l) (i + 1) =
      specCursor gap (e.saveDate - gap * dayMs) l i := by
  cases i with
  | zero => simp [specCursor]
  | succ j => simp [specCursor]

theorem streakWalk_counted (gap : ℤ) (l : List StreakEntry) (c : ℤ) (i : ℕ)
    (h : i < streakWalk gap c l) :
    daysDiff (specCursor gap c l i) ((l.getD i default).saveDate) ≤ gap := by
  induction l generalizing c i with
  | nil => simp [streakWalk] at h
  | cons e rest ih =>
    rw [streakWalk] at h
    by_cases hg : daysDiff c e.saveDate ≤ gap
    · rw [if_pos hg] at h
      cases i with
      | zero => simpa [specCursor] using hg
      | succ j =>
        rw [specCursor_cons]
        have hj : j < streakWalk gap (e.saveDate - gap * dayMs) rest :=
          Nat.lt_of_succ_lt_succ h
        simpa using ih _ _ hj
    · rw [if_neg hg] at h
      omega

theorem streakWalk_stop (gap : ℤ) (l : List StreakEntry) (c : ℤ)
    (h : streakWalk gap c l < l.length) :
    gap < daysDiff (specCursor gap c l (streakWalk gap c l))
      ((l.getD (streakWalk gap c l) default).saveDate) := by
  induction l generalizing c with
  | nil => simp [streakWalk] at h
  | cons e rest ih =>
    by_cases hg : daysDiff c e.saveDate ≤ gap
    · have hw : streakWalk gap c (e :: rest) =
          streakWalk gap (e.saveDate - gap * dayMs) rest + 1 := by
        rw [streakWalk, if_pos hg]
      rw [hw, specCursor_cons]
      have hlen : streakWalk gap (e.saveDate - gap * dayMs) rest < rest.length := by
        rw [hw] at h
        simpa using Nat.lt_of_succ_lt_succ h
      simpa using ih _ hlen
    · have hw : streakWalk gap c (e :: rest) = 0 := by
        rw [streakWalk, if_neg hg]
      rw [hw]
      simpa [specCursor] using not_le.mp hg

theorem mem_dailyEntries_saveDate_le (n : ℕ) (base : ℤ) :
    ∀ x ∈ dailyEntries n base, x.saveDate ≤ base := by
  induction n generalizing base with
  | zero => simp [dailyEntries]
  | succ m ih =>
    intro x hx
    rw [dailyEntries] at hx
    have hday : (0 : ℤ) < dayMs := by norm_num [dayMs]
    rcases List.mem_cons.mp hx with h | h
    · subst h; exact le_refl _
    · have := ih (base - dayMs) x h
      omega

theorem dailyEntries_sorted (n : ℕ) (base : ℤ) :
    List.Sorted (fun a b : StreakEntry => b.saveDate ≤ a.saveDate)
      (dailyEntries n base) := by
  induction n generalizing base with
  | zero => simp [dailyEntries]
  | succ m ih =>
    rw [dailyEntries]
    refine List.sorted_cons.mpr ⟨?_, ih _⟩
    intro b hb
    have h1 := mem_dailyEntries_saveDate_le m (base - dayMs) b hb
    have hday : (0 : ℤ) < dayMs := by norm_num [dayMs]
    show b.saveDate ≤ base
    omega

theorem sortEntriesDesc_dailyEntries (n : ℕ) (base : ℤ) :
    sortEntriesDesc (dailyEntries n base) = dailyEntries n base :=
  List.Sorted.insertionSort_eq (dailyEntries_sorted n base)

/-- The whole-day gap between a cursor and a date exactly `k` days earlier. -/
theorem daysDiff_sub_mul (x k : ℤ) : daysDiff x (x - k * dayMs) = k := by
  unfold daysDiff
  rw [show x - (x - k * dayMs) = k * dayMs by ring]
  exact Int.mul_fdiv_cancel _ (by norm_num [dayMs])

theorem streakWalk_dailyEntries (n : ℕ) (now base : ℤ)
    (h : daysDiff now base ≤ 1) :
    streakWalk 1 now (dailyEntries n base) = n := by
  induction n generalizing now base with
  | zero => simp [dailyEntries, streakWalk]
  | succ m ih =>
    rw [dailyEntries, streakWalk, if_pos (by simpa using h)]
    have hstep : daysDiff ((⟨0, 0, 1, base, 0⟩ : StreakEntry).saveDate - 1 * dayMs)
        (base - dayMs) ≤ 1 := by
      show daysDiff (base - 1 * dayMs) (base - dayMs) ≤ 1
      rw [show base - dayMs = (base - 1 * dayMs) - 0 * dayMs by ring]
      rw [daysDiff_sub_mul]
      norm_num
    rw [ih _ _ hstep]

/-! ### Claim theorems -/

/-- C10: after every recomputation, the persisted `currentStreak` is at most
the number of entries and at most the persisted `longestStreak`. -/
theorem streak_invariants (now : ℤ) (s : SavingsStreak)
    (entries : List StreakEntry) :
    (updateStreakProgress now s entries).currentStreak ≤ (entries.length : ℤ) ∧
    (updateStreakProgress now s entries).currentStreak ≤
      (updateStreakProgress now s entries).longestStreak := by
  constructor
  · have h := streakWalk_le_length (expectedGapOf s.frequency) now
      (sortEntriesDesc entries)
    have hlen : (sortEntriesDesc entries).length = entries.length :=
      List.length_insertionSort _ _
    rw [hlen] at h
    simpa [updateStreakProgress] using Int.ofNat_le.mpr h
  · simp [updateStreakProgress]

/-- C2: every recomputation sets `longestStreak` to
`max(currentStreak, stored longestStreak)`, so the stored `longestStreak`
never decreases, in particular across any sequence of entry additions. -/
theorem longest_streak_ratchet (now : ℤ) (s : SavingsStreak)
    (entries : List StreakEntry) :
    ((updateStreakProgress now s entries).longestStreak =
      max (updateStreakProgress now s entries).currentStreak s.longestStreak) ∧
    s.longestStreak ≤ (updateStreakProgress now s entries).longestStreak ∧
    ∀ (es : List StreakEntry) (start : SavingsStreak × List StreakEntry),
      start.1.longestStreak ≤
        (es.foldl (addEntryAndRecompute now) start).1.longestStreak := by
  refine ⟨by simp [updateStreakProgress], by simp [updateStreakProgress], ?_⟩
  intro es
  induction es with
  | nil => intro start; simp
  | cons e rest ih =>
    intro start
    refine le_trans ?_ (ih (addEntryAndRecompute now start e))
    simp [addEntryAndRecompute, updateStreakProgress]

/-- C5: recomputation over zero entries yields `currentStreak = 0`,
`totalSaved = 0`, `lastSaveDate` unset, and leaves `longestStreak` at its
stored (nonnegative) value. -/
theorem zero_entries_recompute (now : ℤ) (s : SavingsStreak)
    (h : 0 ≤ s.longestStreak) :
    (updateStreakProgress now s []).currentStreak = 0 ∧
    (updateStreakProgress now s []).totalSaved = 0 ∧
    (updateStreakProgress now s []).lastSaveDate = none ∧
    (updateStreakProgress now s []).longestStreak = s.longestStreak := by
  refine ⟨?_, ?_, ?_, ?_⟩
  · simp [updateStreakProgress, sortEntriesDesc, streakWalk]
  · simp [updateStreakProgress, jsSum]
  · simp [updateStreakProgress, sortEntriesDesc]
  · simp [updateStreakProgress, sortEntriesDesc, streakWalk, max_eq_right h]

/-- Witness for C5 at a concrete streak. -/
theorem zero_entries_recompute_witness :
    0 ≤ (sampleStreak "daily").longestStreak ∧
    (updateStreakProgress 0 (sampleStreak "daily") []).currentStreak = 0 ∧
    (updateStreakProgress 0 (sampleStreak "daily") []).totalSaved = 0 ∧
    (updateStreakProgress 0 (sampleStreak "daily") []).lastSaveDate = none ∧
    (updateStreakProgress 0 (sampleStreak "daily") []).longestStreak =
      (sampleStreak "daily").longestStreak := by
  have h := zero_entries_recompute 0 (sampleStreak "daily") (by norm_num [sampleStreak])
  exact ⟨by norm_num [sampleStreak], h.1, h.2.1, h.2.2.1, h.2.2.2⟩

/-- C9: during recomputation, every frequency string other than `"weekly"`
and `"monthly"` is treated as daily (`expectedGap = 1`). -/
theorem frequency_fallback_daily (f : String) (h1 : f ≠ "weekly")
    (h2 : f ≠ "monthly") : expectedGapOf f = 1 := by
  simp [expectedGapOf, h1, h2]

/-- Witness for C9 at an arbitrary string the insert schema accepts. -/
theorem frequency_fallback_daily_witness : expectedGapOf "banana" = 1 :=
  frequency_fallback_daily "banana" (by decide) (by decide)

theorem streakWalk_two_day_gap (now base : ℤ) (rest : List StreakEntry)
    (h : daysDiff now base ≤ 1) :
    streakWalk 1 now
      (⟨0, 0, 1, base, 0⟩ :: ⟨0, 0, 1, base - 2 * dayMs, 0⟩ :: rest) =
      streakWalk 1 (base - 3 * dayMs) rest + 2 := by
  rw [streakWalk, if_pos (show daysDiff now base ≤ 1 from h)]
  have h2 : daysDiff ((⟨0, 0, 1, base, 0⟩ : StreakEntry).saveDate - 1 * dayMs)
      ((⟨0, 0, 1, base - 2 * dayMs, 0⟩ : StreakEntry).saveDate) ≤ 1 := by
    show daysDiff (base - 1 * dayMs) (base - 2 * dayMs) ≤ 1
    rw [show base - 2 * dayMs = (base - 1 * dayMs) - 1 * dayMs by ring,
      daysDiff_sub_mul]
  rw [streakWalk, if_pos h2]
  rw [show (⟨0, 0, 1, base - 2 * dayMs, 0⟩ : StreakEntry).saveDate - 1 * dayMs =
    base - 3 * dayMs from by show base - 2 * dayMs - 1 * dayMs = base - 3 * dayMs; ring]

theorem streakWalk_gap_breaks (now base k : ℤ) (rest : List StreakEntry)
    (h : daysDiff now base ≤ 1) (hk : 3 ≤ k) :
    streakWalk 1 now
      (⟨0, 0, 1, base, 0⟩ :: ⟨0, 0, 1, base - k * dayMs, 0⟩ :: rest) = 1 := by
  rw [streakWalk, if_pos (show daysDiff now base ≤ 1 from h)]
  rw [streakWalk, if_neg ?hneg]
  case hneg =>
    show ¬ daysDiff (base - 1 * dayMs) (base - k * dayMs) ≤ 1
    rw [show base - k * dayMs = (base - 1 * dayMs) - (k - 1) * dayMs by ring,
      daysDiff_sub_mul]
    omega

/-- C1 (amended): the walk counts entries most-recent-first from a cursor
initialized to now, each counted entry moving the cursor to its save date
minus the expected gap, and stops at the first entry whose whole-day gap
from the cursor exceeds the expected gap; `currentStreak` is the number of
counted entries.  A daily streak over consecutive calendar days counts every
entry; a two-calendar-day gap between consecutive entries is tolerated
(whole-day cursor gap 1), and a gap of three or more days breaks the walk. -/
theorem streak_walk_characterization (now : ℤ) (s : SavingsStreak)
    (entries : List StreakEntry) :
    ((updateStreakProgress now s entries).currentStreak =
      (streakWalk (expectedGapOf s.frequency) now (sortEntriesDesc entries) : ℤ)) ∧
    streakWalk (expectedGapOf s.frequency) now (sortEntriesDesc entries) ≤
      entries.length ∧
    (∀ i, i < streakWalk (expectedGapOf s.frequency) now (sortEntriesDesc entries) →
      daysDiff
        (specCursor (expectedGapOf s.frequency) now (sortEntriesDesc entries) i)
        (((sortEntriesDesc entries).getD i default).saveDate) ≤
        expectedGapOf s.frequency) ∧
    (streakWalk (expectedGapOf s.frequency) now (sortEntriesDesc entries) <
        (sortEntriesDesc entries).length →
      expectedGapOf s.frequency <
        daysDiff
          (specCursor (expectedGapOf s.frequency) now (sortEntriesDesc entries)
            (streakWalk (expectedGapOf s.frequency) now (sortEntriesDesc entries)))
          (((sortEntriesDesc entries).getD
            (streakWalk (expectedGapOf s.frequency) now (sortEntriesDesc entries))
            default).saveDate)) ∧
    (s.frequency = "daily" → ∀ (n : ℕ) (base : ℤ), daysDiff now base ≤ 1 →
      (updateStreakProgress now s (dailyEntries n base)).currentStreak = (n : ℤ)) ∧
    (∀ (base : ℤ) (rest : List StreakEntry), daysDiff now base ≤ 1 →
      streakWalk (expectedGapOf "daily") now
        (⟨0, 0, 1, base, 0⟩ :: ⟨0, 0, 1, base - 2 * dayMs, 0⟩ :: rest) =
        streakWalk 1 (base - 3 * dayMs) rest + 2) ∧
    (∀ (base k : ℤ) (rest : List StreakEntry), daysDiff now base ≤ 1 → 3 ≤ k →
      streakWalk (expectedGapOf "daily") now
        (⟨0, 0, 1, base, 0⟩ :: ⟨0, 0, 1, base - k * dayMs, 0⟩ :: rest) = 1) := by
  have hdaily : expectedGapOf "daily" = 1 := rfl
  refine ⟨by simp [updateStreakProgress], ?_, ?_, ?_, ?_, ?_, ?_⟩
  · have h := streakWalk_le_length (expectedGapOf s.frequency) now
      (sortEntriesDesc entries)
    simpa [sortEntriesDesc, List.length_insertionSort] using h
  · intro i hi
    exact streakWalk_counted _ _ _ _ hi
  · intro hlt
    exact streakWalk_stop _ _ _ hlt
  · intro hf n base hbase
    have hsort := sortEntriesDesc_dailyEntries n base
    have hwalk := streakWalk_dailyEntries n now base hbase
    simp [updateStreakProgress, hsort, hf, expectedGapOf, hwalk]
  · intro base rest hbase
    rw [hdaily]
    exact streakWalk_two_day_gap now base rest hbase
  · intro base k rest hbase hk
    rw [hdaily]
    exact streakWalk_gap_breaks now base k rest hbase hk

/-- Witness for the amended C1 at concrete inputs. -/
theorem streak_walk_characterization_witness :
    (updateStreakProgress 0 (sampleStreak "daily") (dailyEntries 3 0)).currentStreak = 3 ∧
    streakWalk (expectedGapOf "daily") 0
      [⟨0, 0, 1, 0, 0⟩, ⟨0, 0, 1, 0 - 3 * dayMs, 0⟩] = 1 := by
  have h := streak_walk_characterization 0 (sampleStreak "daily") (dailyEntries 3 0)
  have hbase : daysDiff 0 0 ≤ 1 := by simp [daysDiff]
  constructor
  · exact h.2.2.2.2.1 rfl 3 0 hbase
  · exact h.2.2.2.2.2.2 0 3 [] hbase (by norm_num)

/-- C1 counterexample: for a daily streak, two entries two calendar days
apart are BOTH counted (the cursor moves to the first entry's save date
minus one day, so the second entry's whole-day cursor gap is 1 ≤ 1):
`currentStreak` is 2, not 1, so a gap of 2 days does not break the streak. -/
theorem two_day_gap_does_not_break :
    daysDiff 0 (-2 * dayMs) = 2 ∧
    (updateStreakProgress 0 (sampleStreak "daily")
      [⟨1, 1, 1, 0, 0⟩, ⟨2, 1, 1, -2 * dayMs, 0⟩]).currentStreak = 2 := by
  with_unfolding_all decide

theorem foldl_fadd_eq_sum (l : List ℚ) : ∀ acc : ℚ,
    (∀ k, k < l.length →
      rnd53 (acc + (l.take (k + 1)).sum) = acc + (l.take (k + 1)).sum) →
    l.foldl fadd acc = acc + l.sum := by
  induction l with
  | nil => intro acc _; simp
  | cons a t ih =>
    intro acc h
    have h0 : rnd53 (acc + a) = acc + a := by simpa using h 0 (by simp)
    rw [List.foldl_cons, show fadd acc a = acc + a from h0]
    rw [ih (acc + a) ?ht]
    · simp [add_assoc]
    case ht =>
      intro k hk
      have := h (k + 1) (by simpa using Nat.succ_lt_succ hk)
      simpa [add_assoc] using this

/-- C3 (amended): `totalSaved` is the left-to-right binary64 floating-point
sum of the entry amounts; it equals the exact sum whenever every partial sum
is exactly representable in binary64 (e.g. small integer amounts), but not
in general. -/
theorem totalSaved_exact_when_representable (now : ℤ) (s : SavingsStreak)
    (entries : List StreakEntry)
    (h : ∀ k, k < entries.length →
      Fix53 (((entries.map StreakEntry.amount).take (k + 1)).sum)) :
    (updateStreakProgress now s entries).totalSaved =
      (entries.map StreakEntry.amount).sum := by
  show jsSum (entries.map StreakEntry.amount) = _
  unfold jsSum
  rw [foldl_fadd_eq_sum (entries.map StreakEntry.amount) 0 ?hfix]
  · simp
  case hfix =>
    intro k hk
    have := h k (by simpa using hk)
    simpa [Fix53] using this

/-- Witness for the amended C3: integer amounts 1, 2, 3 sum exactly to 6. -/
theorem totalSaved_exact_witness :
    (updateStreakProgress 0 (sampleStreak "daily")
      [⟨1, 1, 1, 0, 0⟩, ⟨2, 1, 2, -dayMs, 0⟩, ⟨3, 1, 3, -2 * dayMs, 0⟩]).totalSaved
      = 6 := by
  have h := totalSaved_exact_when_representable 0 (sampleStreak "daily")
    [⟨1, 1, 1, 0, 0⟩, ⟨2, 1, 2, -dayMs, 0⟩, ⟨3, 1, 3, -2 * dayMs, 0⟩] ?hfix
  · rw [h]; norm_num
  case hfix =>
    intro k hk
    have hk3 : k < 3 := by simpa using hk
    interval_cases k <;> (unfold Fix53; with_unfolding_all decide)

theorem updateStreakProgress_frequency (now : ℤ) (s : SavingsStreak)
    (es : List StreakEntry) :
    (updateStreakProgress now s es).frequency = s.frequency := rfl

/-- C7: for a weekly streak, adding entries dated 7 and 14 days before now
(one at a time, recomputing after each) yields `currentStreak = 2` and
`longestStreak = 2`; adding a third entry dated 40 days before now leaves
both at 2 (its gap from the cursor is 19 > 7, so it is not counted). -/
theorem weekly_scenario (now : ℤ) (s : SavingsStreak) (a1 a2 a3 : ℚ)
    (hf : s.frequency = "weekly") (hl : s.longestStreak = 0) :
    ((([⟨1, s.id, a1, now - 7 * dayMs, 0⟩,
        ⟨2, s.id, a2, now - 14 * dayMs, 0⟩] : List StreakEntry).foldl
          (addEntryAndRecompute now) (s, [])).1.currentStreak = 2 ∧
     (([⟨1, s.id, a1, now - 7 * dayMs, 0⟩,
        ⟨2, s.id, a2, now - 14 * dayMs, 0⟩] : List StreakEntry).foldl
          (addEntryAndRecompute now) (s, [])).1.longestStreak = 2) ∧
    ((([⟨1, s.id, a1, now - 7 * dayMs, 0⟩,
        ⟨2, s.id, a2, now - 14 * dayMs, 0⟩,
        ⟨3, s.id, a3, now - 40 * dayMs, 0⟩] : List StreakEntry).foldl
          (addEntryAndRecompute now) (s, [])).1.currentStreak = 2 ∧
     (([⟨1, s.id, a1, now - 7 * dayMs, 0⟩,
        ⟨2, s.id, a2, now - 14 * dayMs, 0⟩,
        ⟨3, s.id, a3, now - 40 * dayMs, 0⟩] : List StreakEntry).foldl
          (addEntryAndRecompute now) (s, [])).1.longestStreak = 2) := by
  have hday : (0 : ℤ) < dayMs := by norm_num [dayMs]
  set e1 : StreakEntry := ⟨1, s.id, a1, now - 7 * dayMs, 0⟩ with he1
  set e2 : StreakEntry := ⟨2, s.id, a2, now - 14 * dayMs, 0⟩ with he2
  set e3 : StreakEntry := ⟨3, s.id, a3, now - 40 * dayMs, 0⟩ with he3
  have g1 : daysDiff now e1.saveDate ≤ 7 := by
    rw [he1]
    show daysDiff now (now - 7 * dayMs) ≤ 7
    rw [daysDiff_sub_mul]
  have g2 : daysDiff (e1.saveDate - 7 * dayMs) e2.saveDate ≤ 7 := by
    rw [he1, he2]
    show daysDiff (now - 7 * dayMs - 7 * dayMs) (now - 14 * dayMs) ≤ 7
    rw [show now - 14 * dayMs = (now - 7 * dayMs - 7 * dayMs) - 0 * dayMs by ring,
      daysDiff_sub_mul]
    norm_num
  have g3 : ¬ daysDiff (e2.saveDate - 7 * dayMs) e3.saveDate ≤ 7 := by
    rw [he2, he3]
    show ¬ daysDiff (now - 14 * dayMs - 7 * dayMs) (now - 40 * dayMs) ≤ 7
    rw [show now - 40 * dayMs = (now - 14 * dayMs - 7 * dayMs) - 19 * dayMs by ring,
      daysDiff_sub_mul]
    norm_num
  have w1 : streakWalk 7 now [e1] = 1 := by
    rw [streakWalk, if_pos g1, streakWalk]
  have w2 : streakWalk 7 now [e1, e2] = 2 := by
    rw [streakWalk, if_pos g1, streakWalk, if_pos g2, streakWalk]
  have w3 : streakWalk 7 now [e1, e2, e3] = 2 := by
    rw [streakWalk, if_pos g1, streakWalk, if_pos g2, streakWalk, if_neg g3]
  have hs1 : sortEntriesDesc [e1] = [e1] := by
    refine List.Sorted.insertionSort_eq ?_
    exact List.sorted_singleton _
  have hs2 : sortEntriesDesc [e1, e2] = [e1, e2] := by
    refine List.Sorted.insertionSort_eq ?_
    refine List.sorted_cons.mpr ⟨?_, List.sorted_singleton _⟩
    intro b hb
    rw [List.mem_singleton] at hb
    subst hb
    show e2.saveDate ≤ e1.saveDate
    rw [he1, he2]
    show now - 14 * dayMs ≤ now - 7 * dayMs
    omega
  have hs3 : sortEntriesDesc [e1, e2, e3] = [e1, e2, e3] := by
    refine List.Sorted.insertionSort_eq ?_
    refine List.sorted_cons.mpr ⟨?_, List.sorted_cons.mpr ⟨?_, List.sorted_singleton _⟩⟩
    · intro b hb
      rcases List.mem_cons.mp hb with rfl | hb
      · show e2.saveDate ≤ e1.saveDate
        rw [he1, he2]
        show now - 14 * dayMs ≤ now - 7 * dayMs
        omega
      · rw [List.mem_singleton] at hb
        subst hb
        show e3.saveDate ≤ e1.saveDate
        rw [he1, he3]
        show now - 40 * dayMs ≤ now - 7 * dayMs
        omega
    · intro b hb
      rw [List.mem_singleton] at hb
      subst hb
      show e3.saveDate ≤ e2.saveDate
      rw [he2, he3]
      show now - 40 * dayMs ≤ now - 14 * dayMs
      omega
  have hgap : expectedGapOf "weekly" = 7 := rfl
  have cur2 : (updateStreakProgress now (updateStreakProgress now s [e1])
      [e1, e2]).currentStreak = 2 := by
    simp only [updateStreakProgress, hf, hgap, hs1, hs2, w1, w2, hl]
    norm_num
  have long2 : (updateStreakProgress now (updateStreakProgress now s [e1])
      [e1, e2]).longestStreak = 2 := by
    simp only [updateStreakProgress, hf, hgap, hs1, hs2, w1, w2, hl]
    norm_num
  have cur3 : (updateStreakProgress now (updateStreakProgress now
      (updateStreakProgress now s [e1]) [e1, e2]) [e1, e2, e3]).currentStreak = 2 := by
    simp only [updateStreakProgress, hf, hgap, hs1, hs2, hs3, w1, w2, w3, hl]
    norm_num
  have long3 : (updateStreakProgress now (updateStreakProgress now
      (updateStreakProgress now s [e1]) [e1, e2]) [e1, e2, e3]).longestStreak = 2 := by
    simp only [updateStreakProgress, hf, hgap, hs1, hs2, hs3, w1, w2, w3, hl]
    norm_num
  refine ⟨⟨?_, ?_⟩, ?_, ?_⟩ <;>
    simp only [List.foldl_cons, List.foldl_nil, addEntryAndRecompute,
      List.nil_append, List.cons_append] <;>
    first
      | exact cur2 | exact long2 | exact cur3 | exact long3

/-- Witness for C7 at a concrete fresh weekly streak, `now = 0` and amount 5. -/
theorem weekly_scenario_witness :
    ((([⟨1, (sampleStreak "weekly").id, 5, 0 - 7 * dayMs, 0⟩,
        ⟨2, (sampleStreak "weekly").id, 5, 0 - 14 * dayMs, 0⟩] : List StreakEntry).foldl
          (addEntryAndRecompute 0) (sampleStreak "weekly", [])).1.currentStreak = 2 ∧
     (([⟨1, (sampleStreak "weekly").id, 5, 0 - 7 * dayMs, 0⟩,
        ⟨2, (sampleStreak "weekly").id, 5, 0 - 14 * dayMs, 0⟩] : List StreakEntry).foldl
          (addEntryAndRecompute 0) (sampleStreak "weekly", [])).1.longestStreak = 2) ∧
    ((([⟨1, (sampleStreak "weekly").id, 5, 0 - 7 * dayMs, 0⟩,
        ⟨2, (sampleStreak "weekly").id, 5, 0 - 14 * dayMs, 0⟩,
        ⟨3, (sampleStreak "weekly").id, 5, 0 - 40 * dayMs, 0⟩] : List StreakEntry).foldl
          (addEntryAndRecompute 0) (sampleStreak "weekly", [])).1.currentStreak = 2 ∧
     (([⟨1, (sampleStreak "weekly").id, 5, 0 - 7 * dayMs, 0⟩,
        ⟨2, (sampleStreak "weekly").id, 5, 0 - 14 * dayMs, 0⟩,
        ⟨3, (sampleStreak "weekly").id, 5, 0 - 40 * dayMs, 0⟩] : List StreakEntry).foldl
          (addEntryAndRecompute 0) (sampleStreak "weekly", [])).1.longestStreak = 2) :=
  weekly_scenario 0 (sampleStreak "weekly") 5 5 5 rfl rfl

/-! ### Lemmas about the ownership-scoped store -/

theorem selectFirst_eq_none {ρ : Type} (p : ρ → Bool) (rows : List ρ)
    (h : ∀ r ∈ rows, p r = false) : selectFirst p rows = none := by
  unfold selectFirst
  rw [List.filter_eq_nil_iff.mpr (fun a ha => by simp [h a ha])]
  rfl

theorem updateWhere_no_match {ρ : Type} (f : ρ → ρ) (p : ρ → Bool)
    (rows : List ρ) (h : ∀ r ∈ rows, p r = false) :
    updateWhere f p rows = (rows, none) := by
  unfold updateWhere
  have h1 : rows.map (fun r => if p r then f r else r) = rows := by
    conv_rhs => rw [← List.map_id rows]
    exact List.map_congr_left fun a ha => by rw [h a ha]; simp
  have h2 : rows.filter p = [] :=
    List.filter_eq_nil_iff.mpr fun a ha => by simp [h a ha]
  rw [h1, h2]
  rfl

theorem deleteWhere_no_match {ρ : Type} (p : ρ → Bool) (rows : List ρ)
    (h : ∀ r ∈ rows, p r = false) : deleteWhere p rows = (rows, false) := by
  unfold deleteWhere
  have h1 : rows.filter (fun r => !(p r)) = rows :=
    List.filter_eq_self.mpr fun a ha => by simp [h a ha]
  have h2 : rows.any p = false :=
    List.any_eq_false.mpr fun a ha => by simp [h a ha]
  rw [h1, h2]

theorem selectFirst_isSome {ρ : Type} (p : ρ → Bool) (rows : List ρ) (r : ρ)
    (hr : r ∈ rows) (hp : p r = true) : (selectFirst p rows).isSome := by
  unfold selectFirst
  have hmem : r ∈ rows.filter p := List.mem_filter.mpr ⟨hr, hp⟩
  cases hfil : rows.filter p with
  | nil => rw [hfil] at hmem; simp at hmem
  | cons a t => simp [hfil]

theorem selectFirst_updateWhere {ρ : Type} (f : ρ → ρ) (p : ρ → Bool)
    (rows : List ρ) (hf : ∀ r, p r = true → p (f r) = true) :
    selectFirst p (updateWhere f p rows).1 = (selectFirst p rows).map f := by
  induction rows with
  | nil => rfl
  | cons r t ih =>
    by_cases hp : p r = true
    · simp [selectFirst, updateWhere, List.filter_cons, hp, hf r hp]
    · have hp' : p r = false := by simpa using hp
      simpa [selectFirst, updateWhere, List.filter_cons, hp'] using ih

/-- Ownership scoping of the storage-backed API: every `DatabaseStorage`
`get`/`update`/`delete` filters by both id and owning userId in one query,
so a request for an id not owned by the caller returns nothing / updates
nothing / deletes nothing — exactly like a nonexistent id — and every
storage-backed route maps that to 404 (never 403). -/
theorem ownership_scoping (id : ℤ) (u : String) (now : ℤ)
    (dbE : List Expense) (dbB : List Budget) (dbG : List Goal)
    (dbS : List SavingsStreak)
    (setE : Expense → Expense) (setB : Budget → Budget) (setG : Goal → Goal)
    (setS : SavingsStreak → SavingsStreak)
    (hE : ∀ r ∈ dbE, ¬(r.id = id ∧ r.userId = u))
    (hB : ∀ r ∈ dbB, ¬(r.id = id ∧ r.userId = u))
    (hG : ∀ r ∈ dbG, ¬(r.id = id ∧ r.userId = u))
    (hS : ∀ r ∈ dbS, ¬(r.id = id ∧ r.userId = u)) :
    DatabaseStorage.getExpense dbE id u = none ∧
    DatabaseStorage.updateExpense dbE id setE u = (dbE, none) ∧
    DatabaseStorage.deleteExpense dbE id u = (dbE, false) ∧
    DatabaseStorage.updateBudget dbB id setB u = (dbB, none) ∧
    DatabaseStorage.deleteBudget dbB id u = (dbB, false) ∧
    DatabaseStorage.getGoal dbG id u = none ∧
    DatabaseStorage.updateGoal dbG id setG u now = (dbG, none) ∧
    DatabaseStorage.deleteGoal dbG id u = (dbG, false) ∧
    DatabaseStorage.getSavingsStreak dbS id u = none ∧
    DatabaseStorage.updateSavingsStreak dbS id setS u now = (dbS, none) ∧
    DatabaseStorage.deleteSavingsStreak dbS id u = (dbS, false) ∧
    Routes.getGoalRoute dbG id u = 404 ∧
    Routes.getGoalRoute dbG id u = Routes.getGoalRoute (withoutId Goal.id id dbG) id u ∧
    Routes.putGoalRoute dbG id setG u now = (404, dbG) ∧
    Routes.deleteGoalRoute dbG id u = (404, dbG) ∧
    Routes.getExpenseRoute dbE id u = 404 ∧
    Routes.getExpenseRoute dbE id u =
      Routes.getExpenseRoute (withoutId Expense.id id dbE) id u ∧
    Routes.putExpenseRoute dbE id setE u = (404, dbE) ∧
    Routes.deleteExpenseRoute dbE id u = (404, dbE) ∧
    Routes.putBudgetRoute dbB id setB u = (404, dbB) ∧
    Routes.deleteBudgetRoute dbB id u = (404, dbB) ∧
    Routes.getStreakRoute dbS id u = 404 ∧
    Routes.getStreakRoute dbS id u =
      Routes.getStreakRoute (withoutId SavingsStreak.id id dbS) id u ∧
    Routes.deleteStreakRoute dbS id u = (404, dbS) := by
  have hE' : ∀ r ∈ dbE, DatabaseStorage.expenseMatch id u r = false :=
    fun r hr => decide_eq_false (hE r hr)
  have hB' : ∀ r ∈ dbB, DatabaseStorage.budgetMatch id u r = false :=
    fun r hr => decide_eq_false (hB r hr)
  have hG' : ∀ r ∈ dbG, DatabaseStorage.goalMatch id u r = false :=
    fun r hr => decide_eq_false (hG r hr)
  have hS' : ∀ r ∈ dbS, DatabaseStorage.streakMatch id u r = false :=
    fun r hr => decide_eq_false (hS r hr)
  have hG2 : ∀ r ∈ withoutId Goal.id id dbG,
      DatabaseStorage.goalMatch id u r = false := by
    intro r hr
    have hne : r.id ≠ id := by simpa using (List.mem_filter.mp hr).2
    exact decide_eq_false fun hc => hne hc.1
  have hE2 : ∀ r ∈ withoutId Expense.id id dbE,
      DatabaseStorage.expenseMatch id u r = false := by
    intro r hr
    have hne : r.id ≠ id := by simpa using (List.mem_filter.mp hr).2
    exact decide_eq_false fun hc => hne hc.1
  have hS2 : ∀ r ∈ withoutId SavingsStreak.id id dbS,
      DatabaseStorage.streakMatch id u r = false := by
    intro r hr
    have hne : r.id ≠ id := by simpa using (List.mem_filter.mp hr).2
    exact decide_eq_false fun hc => hne hc.1
  refine ⟨selectFirst_eq_none _ _ hE', updateWhere_no_match _ _ _ hE',
    deleteWhere_no_match _ _ hE', updateWhere_no_match _ _ _ hB',
    deleteWhere_no_match _ _ hB', selectFirst_eq_none _ _ hG',
    updateWhere_no_match _ _ _ hG', deleteWhere_no_match _ _ hG',
    selectFirst_eq_none _ _ hS', updateWhere_no_match _ _ _ hS',
    deleteWhere_no_match _ _ hS', ?_, ?_, ?_, ?_, ?_, ?_, ?_, ?_, ?_, ?_, ?_,
    ?_, ?_⟩
  · simp [Routes.getGoalRoute, DatabaseStorage.getGoal,
      selectFirst_eq_none _ _ hG']
  · simp [Routes.getGoalRoute, DatabaseStorage.getGoal,
      selectFirst_eq_none _ _ hG', selectFirst_eq_none _ _ hG2]
  · simp [Routes.putGoalRoute, DatabaseStorage.updateGoal,
      updateWhere_no_match _ _ _ hG']
  · simp [Routes.deleteGoalRoute, DatabaseStorage.deleteGoal,
      deleteWhere_no_match _ _ hG']
  · simp [Routes.getExpenseRoute, DatabaseStorage.getExpense,
      selectFirst_eq_none _ _ hE']
  · simp [Routes.getExpenseRoute, DatabaseStorage.getExpense,
      selectFirst_eq_none _ _ hE', selectFirst_eq_none _ _ hE2]
  · simp [Routes.putExpenseRoute, DatabaseStorage.updateExpense,
      updateWhere_no_match _ _ _ hE']
  · simp [Routes.deleteExpenseRoute, DatabaseStorage.deleteExpense,
      deleteWhere_no_match _ _ hE']
  · simp [Routes.putBudgetRoute, DatabaseStorage.updateBudget,
      updateWhere_no_match _ _ _ hB']
  · simp [Routes.deleteBudgetRoute, DatabaseStorage.deleteBudget,
      deleteWhere_no_match _ _ hB']
  · simp [Routes.getStreakRoute, DatabaseStorage.getSavingsStreak,
      selectFirst_eq_none _ _ hS']
  · simp [Routes.getStreakRoute, DatabaseStorage.getSavingsStreak,
      selectFirst_eq_none _ _ hS', selectFirst_eq_none _ _ hS2]
  · simp [Routes.deleteStreakRoute, DatabaseStorage.deleteSavingsStreak,
      deleteWhere_no_match _ _ hS']

/-- Witness for the storage-backed ownership scoping: user "bob" requesting
id 1, which belongs to "alice". -/
theorem ownership_scoping_witness :
    DatabaseStorage.getGoal [sampleGoal] 1 "bob" = none ∧
    DatabaseStorage.getExpense [sampleExpense] 1 "bob" = none ∧
    DatabaseStorage.deleteBudget [sampleBudget] 1 "bob" = ([sampleBudget], false) ∧
    DatabaseStorage.getSavingsStreak [sampleStreak "daily"] 1 "bob" = none ∧
    Routes.getGoalRoute [sampleGoal] 1 "bob" = 404 ∧
    Routes.getGoalRoute [sampleGoal] 1 "bob" =
      Routes.getGoalRoute (withoutId Goal.id 1 [sampleGoal]) 1 "bob" ∧
    Routes.putGoalRoute [sampleGoal] 1 id "bob" 0 = (404, [sampleGoal]) ∧
    Routes.deleteStreakRoute [sampleStreak "daily"] 1 "bob" =
      (404, [sampleStreak "daily"]) := by
  obtain ⟨h1, h2, h3, h4, h5, h6, h7, h8, h9, h10, h11, h12, h13, h14, h15,
      h16, h17, h18, h19, h20, h21, h22, h23, h24⟩ :=
    ownership_scoping 1 "bob" 0 [sampleExpense] [sampleBudget]
      [sampleGoal] [sampleStreak "daily"] id id id id
      (by intro r hr; simp [sampleExpense] at hr; subst hr; simp [sampleExpense])
      (by intro r hr; simp [sampleBudget] at hr; subst hr; simp [sampleBudget])
      (by intro r hr; simp [sampleGoal] at hr; subst hr; simp [sampleGoal])
      (by intro r hr; simp [sampleStreak] at hr; subst hr; simp [sampleStreak])
  exact ⟨h6, h1, h5, h9, h12, h13, h14, h24⟩

/-- C4 (code bug): the standalone server's `PUT`/`DELETE /api/goals/:id`
drop the id filter at runtime — drizzle's second chained `.where` replaces
the first — so the query is scoped by userId alone.  With "alice" owning
goal 1 and "bob" owning goal 2, bob's request for goal 1 (alice's) answers
200 and overwrites bob's own unrelated goal — and a nonexistent id 999
behaves exactly the same — instead of both returning 404 as the claim, the
route's own swagger documentation, and the storage-backed implementation of
the same endpoint (`ownership_scoping`) prescribe.  The delete likewise
answers 204 and removes bob's goal. -/
theorem index_goal_routes_drop_id_filter :
    (Routes.indexPutGoalRoute [sampleGoal, bobGoal] 1
      (fun g => { g with title := "hacked" }) "bob" 5).1 = 200 ∧
    (Routes.indexPutGoalRoute [sampleGoal, bobGoal] 1
      (fun g => { g with title := "hacked" }) "bob" 5).2 =
      [sampleGoal, { bobGoal with title := "hacked", updatedAt := 5 }] ∧
    Routes.indexPutGoalRoute [sampleGoal, bobGoal] 999
      (fun g => { g with title := "hacked" }) "bob" 5 =
      Routes.indexPutGoalRoute [sampleGoal, bobGoal] 1
        (fun g => { g with title := "hacked" }) "bob" 5 ∧
    (Routes.indexDeleteGoalRoute [sampleGoal, bobGoal] 1 "bob").1 = 204 ∧
    (Routes.indexDeleteGoalRoute [sampleGoal, bobGoal] 1 "bob").2 =
      [sampleGoal] := by
  with_unfolding_all decide

/-- C6 counterexample: a valid progress update with amount 500 does persist
500 as `currentAmount`, but it also rewrites `updatedAt`, so not every other
goal field is left untouched. -/
theorem goal_progress_touches_updatedAt :
    (Routes.patchGoalProgressRoute [sampleGoal] 1 "alice" (Json.num 500) 1).1 = 200 ∧
    (((Routes.patchGoalProgressRoute [sampleGoal] 1 "alice" (Json.num 500) 1).2.headD
      sampleGoal).currentAmount = 500) ∧
    (((Routes.patchGoalProgressRoute [sampleGoal] 1 "alice" (Json.num 500) 1).2.headD
      sampleGoal).updatedAt ≠ sampleGoal.updatedAt) := by
  with_unfolding_all decide

/-- C6 (amended): the goal progress route rejects a negative or non-numeric
amount with a 400 validation error and leaves the table unchanged; for a
valid amount it persists exactly that value as `currentAmount`, stamps
`updatedAt` with the operation time, and leaves every other goal field
untouched. -/
theorem goal_progress_update :
    (∀ (db : List Goal) (id : ℤ) (u : String) (now : ℤ) (x : ℚ), x < 0 →
      Routes.patchGoalProgressRoute db id u (Json.num x) now = (400, db)) ∧
    (∀ (db : List Goal) (id : ℤ) (u : String) (now : ℤ) (j : Json),
      (∀ x : ℚ, j ≠ Json.num x) →
      Routes.patchGoalProgressRoute db id u j now = (400, db)) ∧
    (∀ (db : List Goal) (id : ℤ) (u : String) (now : ℤ) (x : ℚ) (g : Goal),
      0 ≤ x → DatabaseStorage.getGoal db id u = some g →
      Routes.patchGoalProgressRoute db id u (Json.num x) now =
        (200, (DatabaseStorage.updateGoalProgress db id x u now).1) ∧
      DatabaseStorage.getGoal (DatabaseStorage.updateGoalProgress db id x u now).1
        id u = some { g with currentAmount := x, updatedAt := now }) := by
  refine ⟨?_, ?_, ?_⟩
  · intro db id u now x hx
    simp [Routes.patchGoalProgressRoute, hx]
  · intro db id u now j hj
    cases j with
    | num x => exact absurd rfl (hj x)
    | str s => rfl
    | jbool b => rfl
    | null => rfl
  · intro db id u now x g hx hg
    have hpres : ∀ r : Goal, DatabaseStorage.goalMatch id u r = true →
        DatabaseStorage.goalMatch id u
          ({ r with currentAmount := x, updatedAt := now }) = true := by
      intro r hr
      simpa [DatabaseStorage.goalMatch] using hr
    have hsel := selectFirst_updateWhere
      (fun g => { g with currentAmount := x, updatedAt := now })
      (DatabaseStorage.goalMatch id u) db hpres
    constructor
    · have hx' : ¬ x < 0 := not_lt.mpr hx
      have hsome : (DatabaseStorage.updateGoalProgress db id x u now).2 =
          some { g with currentAmount := x, updatedAt := now } := by
        show ((db.filter (DatabaseStorage.goalMatch id u)).head?).map _ =
          _
        have : (db.filter (DatabaseStorage.goalMatch id u)).head? = some g := hg
        rw [this]
        rfl
      simp [Routes.patchGoalProgressRoute, hx', hsome]
    · show selectFirst _ (updateWhere _ _ _).1 = _
      rw [hsel]
      show (selectFirst (DatabaseStorage.goalMatch id u) db).map _ = _
      rw [show selectFirst (DatabaseStorage.goalMatch id u) db = some g from hg]
      rfl

/-- Witness for the amended C6 at concrete inputs. -/
theorem goal_progress_update_witness :
    Routes.patchGoalProgressRoute [sampleGoal] 1 "alice" (Json.num (-5)) 1 =
      (400, [sampleGoal]) ∧
    Routes.patchGoalProgressRoute [sampleGoal] 1 "alice" (Json.str "abc") 1 =
      (400, [sampleGoal]) ∧
    DatabaseStorage.getGoal
      (DatabaseStorage.updateGoalProgress [sampleGoal] 1 500 "alice" 1).1 1 "alice" =
      some { sampleGoal with currentAmount := 500, updatedAt := 1 } := by
  refine ⟨goal_progress_update.1 [sampleGoal] 1 "alice" 1 (-5) (by norm_num),
    goal_progress_update.2.1 [sampleGoal] 1 "alice" 1 (Json.str "abc")
      (fun x => by simp), ?_⟩
  exact (goal_progress_update.2.2 [sampleGoal] 1 "alice" 1 500 sampleGoal
    (by norm_num) (by with_unfolding_all decide)).2

/-- C8: both register endpoints fail with a Conflict response (400 in the
session-auth variant, 409 in the standalone server) when the email is
already registered, and neither creates a new user row. -/
theorem register_conflict (db : List User) (e p : String)
    (fn ln : Option String) (hash : String → String) (fid : String) (now : ℤ)
    (he : e ≠ "") (hp : p ≠ "") (hex : ∃ v ∈ db, v.email = e) :
    Routes.registerRoute db (some e) (some p) fn ln hash fid now = (400, db) ∧
    Routes.authRegisterRoute db e p fn ln hash fid now = (409, db) := by
  obtain ⟨v, hv, hve⟩ := hex
  have hsome : (DatabaseStorage.getUserByEmail db e).isSome :=
    selectFirst_isSome _ db v hv (by simp [hve])
  obtain ⟨w, hw⟩ := Option.isSome_iff_exists.mp hsome
  constructor
  · simp [Routes.registerRoute, he, hp, hw]
  · simp [Routes.authRegisterRoute, hw]

/-- Witness for C8: registering "alice@mail.com" twice. -/
theorem register_conflict_witness :
    Routes.registerRoute [sampleUser] (some "alice@mail.com") (some "pw")
      none none id "u2" 0 = (400, [sampleUser]) ∧
    Routes.authRegisterRoute [sampleUser] "alice@mail.com" "pw"
      none none id "u2" 0 = (409, [sampleUser]) :=
  register_conflict [sampleUser] "alice@mail.com" "pw" none none id "u2" 0
    (by decide) (by decide) ⟨sampleUser, by simp, by simp [sampleUser]⟩

/-- C3 counterexample: with the two stored binary64 amounts closest to 0.1
and 0.2, the recomputed `totalSaved` differs both from the exact sum of the
stored amounts and from the decimal value 3/10 — the reduction is a
floating-point fold, not exact decimal arithmetic. -/
theorem totalSaved_floating_drift :
    (updateStreakProgress 0 (sampleStreak "daily")
      [⟨1, 1, rnd53 (1 / 10), 0, 0⟩,
       ⟨2, 1, rnd53 (2 / 10), -dayMs, 0⟩]).totalSaved ≠
      rnd53 (1 / 10) + rnd53 (2 / 10) ∧
    (updateStreakProgress 0 (sampleStreak "daily")
      [⟨1, 1, rnd53 (1 / 10), 0, 0⟩,
       ⟨2, 1, rnd53 (2 / 10), -dayMs, 0⟩]).totalSaved ≠ 3 / 10 := by
  constructor
  · with_unfolding_all decide
  · with_unfolding_all decide

end Veryfin
